import Mathlib

/-!
Verification of the rollout coordination engine (`worker.py`, `api.py`).

Shallow embedding: the pure data transformations of the activities
(`get_updated_devices`, `configure_device`, `get_artifact`) are translated
into executable Lean functions; the `ProposedChangeWorkflow` coordinator is
modelled as a deterministic transition system over an explicit state record;
the `asyncio.gather` fan-in is modelled as a function of the children's
outcomes together with their completion order.  External collaborators
(GraphQL query results, the object store, the gNMI response) are parameters
of the embedded functions.
-/

namespace RolloutCoord

/-! ## Branch Diff Detector (`get_updated_devices`, worker.py lines 91-117)

The activity fetches the full artifact list for the target branch and for
the baseline branch, builds one set of 4-tuples
`(object_id, checksum, display_label, storage_id)` per fetch, and returns
the dict comprehension `{(a[0], a[1]): a[2] for a in branch_set - main_set}`.
The two GraphQL results are parameters, given as the lists of edge tuples. -/

/-- An artifact tuple as assembled in `get_updated_devices`:
`(object_id, checksum, display_label, storage_id)`. -/
abbrev Artifact4 := String × String × String × String

/-- `get_updated_devices` (worker.py): set difference of the branch artifact
set minus the baseline ("main") artifact set over the full 4-tuple, then the
mapping keyed by `(object_id, checksum)` with value `display_label`,
modelled as the set of key/value pairs. -/
def get_updated_devices (branchEdges mainEdges : List Artifact4) :
    Finset ((String × String) × String) :=
  (branchEdges.toFinset \ mainEdges.toFinset).image
    (fun a => ((a.1, a.2.1), a.2.2.1))

/-! ## Device Apply Protocol adapter (`configure_device`, worker.py 142-189)

The gNMI `set` call returns either a tuple whose second component is a list
of `(op, path, value)` triples (when the client computed a diff) or a bare
response object.  The adapter folds the triples into a `defaultdict(list)`:
`diffs[diff[1]].append(f"{diff[0]} {diff[2]}")`; a non-tuple response yields
`diffs["/"].append("NO CHANGES")`.  It returns `{device: diffs}`. -/

/-- One changed element of a gNMI diff: `(op, path, value)`. -/
abbrev GnmiDiff := String × String × String

/-- The shape of the pygnmi `set` response as discriminated by
`isinstance(gnmi_response, tuple)`: a tuple carrying a diff list, or a plain
response object. -/
inductive GnmiResp where
  | tup (diffs : List GnmiDiff)
  | plain

/-- The change descriptor `f"{diff[0]} {diff[2]}"` built for one diff triple. -/
def fmtDiff (d : GnmiDiff) : String := d.1 ++ " " ++ d.2.2

/-- `defaultdict(list)` append: `m[k].append(v)`, the map modelled as a total
function from path keys to the list accumulated so far. -/
def appendAt (m : String → List String) (k v : String) : String → List String :=
  fun p => if p = k then m p ++ [v] else m p

/-- `configure_device` (worker.py): normalize the gNMI response into
`{device: diffs}`, modelled as the pair of the device name and the path-keyed
diff map. -/
def configure_device (device : String) (resp : GnmiResp) :
    String × (String → List String) :=
  (device,
    match resp with
    | .tup ds => ds.foldl (fun m d => appendAt m d.2.1 (fmtDiff d)) (fun _ => [])
    | .plain => appendAt (fun _ => []) "/" "NO CHANGES")

/-- Folding `appendAt` over a diff list appends, under each path key, exactly
the formatted descriptors of the triples carrying that path, in order. -/
theorem foldl_appendAt (ds : List GnmiDiff) (m : String → List String) (p : String) :
    (ds.foldl (fun m d => appendAt m d.2.1 (fmtDiff d)) m) p
      = m p ++ (ds.filter (fun d => d.2.1 == p)).map fmtDiff := by
  induction ds generalizing m with
  | nil => simp
  | cons d ds ih =>
    simp only [List.foldl_cons, ih, List.filter_cons]
    by_cases h : d.2.1 = p
    · simp [appendAt, h]
    · simp [appendAt, h, Ne.symm h]

/-! ## Fan-in (`asyncio.gather(*child_promises)`, worker.py 211-224)

`asyncio.gather` with `return_exceptions=False`: the first exception, in
completion order, is propagated; when every child succeeds the results are
returned as a list in dispatch (argument) order.  We model the children's
outcomes as a list indexed by dispatch order and the completion order as a
list of indices. -/

/-- The exception carried by a failed outcome, if any. -/
def errOf {ε α : Type} : Except ε α → Option ε
  | .error e => some e
  | .ok _ => none

/-- The value carried by a successful outcome, if any. -/
def okOf {ε α : Type} : Except ε α → Option α
  | .error _ => none
  | .ok a => some a

/-- The exception of the first child, in completion order, whose outcome is a
failure. -/
def firstFailure {ε α : Type} (order : List ℕ) (outs : List (Except ε α)) :
    Option ε :=
  order.findSome? (fun i => (outs.get? i).bind errOf)

/-- `asyncio.gather` as used at the end of `ProposedChangeWorkflow.run`:
`outs` are the child-workflow outcomes in dispatch order, `order` is the
completion order.  The first exception in completion order rejects the whole
gather; otherwise the successful results are returned in dispatch order. -/
def gather {ε α : Type} (order : List ℕ) (outs : List (Except ε α)) :
    Except ε (List α) :=
  match firstFailure order outs with
  | some e => .error e
  | none => .ok (outs.filterMap okOf)

/-! ## Rollout Coordinator (`ProposedChangeWorkflow`, worker.py 192-229)

The workflow is modelled as a deterministic transition system.  Its state
carries the coordinator's phase, the `generated_artifacts` readiness set, the
`received_signals` log, the device mapping returned by the diff activity
(keys are the serialized `"target_id,checksum"` strings the workflow sees),
and the dispatched child calls.  Actions: delivery of an
`update_generated_artifacts` signal (enabled at any time), completion of the
`get_updated_devices` activity, and the dispatch of the child workflows,
which in the source only runs after
`workflow.wait_condition(lambda: set(devices.keys()).issubset(self.generated_artifacts))`
unblocks. -/

/-- Coordinator phase: before the diff activity returns, while it is waiting
at the readiness barrier, and after the children have been dispatched. -/
inductive Phase where
  | init
  | awaiting
  | dispatched
deriving DecidableEq

/-- The serialized readiness key `f"{target_id},{checksum}"` shared by the
signal handler and the keys of the devices mapping. -/
def mkKey (target_id checksum : String) : String :=
  target_id ++ "," ++ checksum

/-- The `received_signals` log line appended by `update_generated_artifacts`. -/
def logEntry (target_id checksum : String) : String :=
  "Added generated artifacts: target_id=" ++ target_id ++ ", checksum=" ++ checksum

/-- State of one `ProposedChangeWorkflow` run.  `readiness` is the
`generated_artifacts` set; `devices` maps serialized keys to display labels;
`dispatched` lists the started children as `(child id, device, expected_checksum)`. -/
structure WfState where
  phase : Phase
  readiness : Finset String
  log : List String
  devices : List (String × String)
  dispatched : List (String × String × String)
deriving DecidableEq

/-- The signal handler `update_generated_artifacts`: adds
`f"{target_id},{checksum}"` to `generated_artifacts` and appends to
`received_signals`. -/
def update_generated_artifacts (s : WfState) (target_id checksum : String) :
    WfState :=
  { s with readiness := insert (mkKey target_id checksum) s.readiness,
           log := s.log ++ [logEntry target_id checksum] }

/-- The child-workflow calls dispatched for a devices mapping: id
`f"{device}-proposed-change-{pcid}"`, arguments the device and
`target_checksum.split(",")[1]`. -/
def childCalls (pcid : String) (devices : List (String × String)) :
    List (String × String × String) :=
  devices.map (fun kd =>
    (kd.2 ++ "-proposed-change-" ++ pcid, kd.2, (kd.1.splitOn ",").getD 1 ""))

/-- Actions a run can take: an external readiness signal, the diff activity
returning its devices mapping, and the guarded dispatch of the children. -/
inductive Act where
  | signal (target_id checksum : String)
  | computeDiff (devices : List (String × String))
  | dispatch
deriving DecidableEq

/-- One step of the coordinator.  `none` means the action is not enabled:
the diff activity completes only once, and dispatch is blocked while
`set(devices.keys()).issubset(self.generated_artifacts)` is false. -/
def step (pcid : String) (s : WfState) (a : Act) : Option WfState :=
  match a with
  | .signal t c => some (update_generated_artifacts s t c)
  | .computeDiff ds =>
    match s.phase with
    | .init => some { s with phase := .awaiting, devices := ds }
    | _ => none
  | .dispatch =>
    match s.phase with
    | .awaiting =>
      if (s.devices.map Prod.fst).toFinset ⊆ s.readiness then
        some { s with phase := .dispatched,
                      dispatched := childCalls pcid s.devices }
      else none
    | _ => none

/-- Total step: a disabled action leaves the state unchanged (the workflow
keeps waiting). -/
def stepTotal (pcid : String) (s : WfState) (a : Act) : WfState :=
  (step pcid s a).getD s

/-- Initial state of a run: empty readiness set, empty log, no devices, no
children. -/
def initState : WfState :=
  { phase := .init, readiness := ∅, log := [], devices := [], dispatched := [] }

/-- Run a list of actions from the initial state. -/
def runActs (pcid : String) (acts : List Act) : WfState :=
  acts.foldl (stepTotal pcid) initState

/-- The set of readiness keys delivered by the signals in an action list. -/
def signaledKeys : List Act → Finset String
  | [] => ∅
  | .signal t c :: rest => insert (mkKey t c) (signaledKeys rest)
  | _ :: rest => signaledKeys rest

/-! ## Device artifact polling (`get_artifact`, worker.py 120-133)

The activity loops: `sleep(3)`, query the device's current
`(checksum, storage_id)`, and exit the loop only when the observed checksum
equals `expected_checksum`; then it fetches the object-store content at the
observed `storage_id` and decodes it.  The sequence of observations is a
parameter `obs : ℕ → String × String` (poll index to `(checksum, storage_id)`),
the object store composed with the YAML decode is a parameter
`store : String → String`.  The unbounded `while` loop is embedded with
explicit fuel; the trace of timing-relevant events is recorded. -/

/-- Events of one `get_artifact` run: a `sleep(3)` (the argument is the
duration in time-units), the i-th checksum query, and the final object-store
fetch by storage id. -/
inductive Ev where
  | sleepEv (duration : ℕ)
  | queryEv (i : ℕ)
  | fetchEv (storage_id : String)
deriving DecidableEq

/-- The `while not artifact_rendered` loop of `get_artifact`, from poll index
`i` with the given fuel: returns the event trace and, on a checksum match,
the `storage_id` observed in the matching poll. -/
def get_artifact_loop (obs : ℕ → String × String) (expected : String) :
    ℕ → ℕ → List Ev × Option String
  | 0, _ => ([], none)
  | fuel + 1, i =>
    if (obs i).1 = expected then
      ([Ev.sleepEv 3, Ev.queryEv i], some (obs i).2)
    else
      let r := get_artifact_loop obs expected fuel (i + 1)
      (Ev.sleepEv 3 :: Ev.queryEv i :: r.1, r.2)

/-- `get_artifact` (worker.py): run the polling loop from index 0, then, on a
match, fetch and decode the content at the matching poll's `storage_id`. -/
def get_artifact (store : String → String) (obs : ℕ → String × String)
    (expected : String) (fuel : ℕ) : List Ev × Option String :=
  match get_artifact_loop obs expected fuel 0 with
  | (evs, some sid) => (evs ++ [Ev.fetchEv sid], some (store sid))
  | (evs, none) => (evs, none)

/-- The event trace of `n` consecutive non-final polls starting at poll
index `i`: each iteration sleeps 3 time-units and then queries. -/
def pollTrace (i : ℕ) : ℕ → List Ev
  | 0 => []
  | n + 1 => Ev.sleepEv 3 :: Ev.queryEv i :: pollTrace (i + 1) n

/-! ## API layer (`api.py`)

Trigger payloads are JSON objects; we embed the fragment needed by the two
entry points: string leaves and objects.  A Python `payload[k]` lookup that
would raise `KeyError` is modelled as `none`. -/

/-- A JSON value: a string leaf or an object with ordered string-keyed
fields. -/
inductive JVal where
  | str (s : String)
  | obj (fields : List (String × JVal))

/-- Object field lookup, `none` when the key is absent or the value is not an
object (Python would raise). -/
def JVal.get? : JVal → String → Option JVal
  | .str _, _ => none
  | .obj fs, k => fs.lookup k

/-- Lookup of a string-valued field. -/
def JVal.getStr? (v : JVal) (k : String) : Option String :=
  match v.get? k with
  | some (.str s) => some s
  | _ => none

/-- The durable workflow id chosen by `run_proposed_change_workflow`
(api.py): `f"proposed-change-{payload['data']['proposed_change_id']}"`. -/
def run_proposed_change_workflow_id (payload : JVal) : Option String :=
  ((payload.get? "data").bind (fun d => d.getStr? "proposed_change_id")).map
    (fun pcid => "proposed-change-" ++ pcid)

/-- The argument `ProposedChangeWorkflow.run` passes to the
`get_updated_devices` activity: `payload["branch"]`, read at the TOP level of
the payload (worker.py line 204). -/
def run_branch_arg (payload : JVal) : Option String :=
  payload.getStr? "branch"

/-- `signal_running_workflows` (api.py 51-72): list the running
`ProposedChangeWorkflow` executions and signal each of them with
`(payload["data"]["target_id"], payload["data"]["checksum"])`.  The value is
the list of deliveries `(workflow_id, target_id, checksum)`; an empty
`running` list yields no deliveries and no error. -/
def signal_running_workflows (running : List String)
    (target_id checksum : String) : List (String × String × String) :=
  running.map (fun wid => (wid, target_id, checksum))

deriving instance DecidableEq for Except

/-! ## Theorems for the claims -/

/-- Claim C1: `get_updated_devices` returns exactly the mapping keyed by
`(object_id, checksum)` with value `display_label` formed from the set
difference `branch_set − baseline_set` over the 4-tuple
`(object_id, checksum, display_label, storage_id)`; when both fetches yield
equal artifact sets the result is the empty mapping. -/
theorem C1_diff_correct (branchEdges mainEdges : List Artifact4) :
    (∀ oid cks lbl,
      ((oid, cks), lbl) ∈ get_updated_devices branchEdges mainEdges ↔
        ∃ sid, (oid, cks, lbl, sid) ∈ branchEdges ∧
               (oid, cks, lbl, sid) ∉ mainEdges)
    ∧ (branchEdges.toFinset = mainEdges.toFinset →
        get_updated_devices branchEdges mainEdges = ∅) := by
  constructor
  · intro oid cks lbl
    simp only [get_updated_devices, Finset.mem_image, Finset.mem_sdiff,
      List.mem_toFinset, Prod.mk.injEq]
    constructor
    · rintro ⟨⟨a1, a2, a3, a4⟩, ⟨hb, hm⟩, ⟨⟨h1, h2⟩, h3⟩⟩
      subst h1; subst h2; subst h3
      exact ⟨a4, hb, hm⟩
    · rintro ⟨sid, hb, hm⟩
      exact ⟨(oid, cks, lbl, sid), ⟨hb, hm⟩, ⟨rfl, rfl⟩, rfl⟩
  · intro h
    simp [get_updated_devices, h]

/-- Witness for C1 at the spec's example scenario. -/
theorem C1_diff_correct_witness :
    ((("R1", "c2"), "router1") ∈
        get_updated_devices [("R1", "c2", "router1", "s2")]
          [("R1", "c1", "router1", "s1")])
    ∧ get_updated_devices [("R1", "c1", "router1", "s1")]
        [("R1", "c1", "router1", "s1")] = ∅ :=
  ⟨((C1_diff_correct [("R1", "c2", "router1", "s2")]
      [("R1", "c1", "router1", "s1")]).1 "R1" "c2" "router1").mpr
      ⟨"s2", by decide, by decide⟩,
   (C1_diff_correct [("R1", "c1", "router1", "s1")]
      [("R1", "c1", "router1", "s1")]).2 rfl⟩

/-- Claim C7: `configure_device` normalizes every successful apply into
`{device: diffs}` where each changed element contributes exactly one entry
`"<op> <value>"` appended under its config-path key, and an apply whose
response reports zero changed paths (a non-tuple gNMI response) yields the
sentinel `{"/": ["NO CHANGES"]}`. -/
theorem C7_apply_normalization (device : String) :
    (∀ ds p, (configure_device device (.tup ds)).2 p
        = (ds.filter (fun d => d.2.1 == p)).map fmtDiff)
    ∧ (∀ resp, (configure_device device resp).1 = device)
    ∧ (∀ p, (configure_device device .plain).2 p
        = if p = "/" then ["NO CHANGES"] else []) := by
  refine ⟨?_, ?_, ?_⟩
  · intro ds p
    simpa [configure_device] using foldl_appendAt ds (fun _ => []) p
  · intro resp; rfl
  · intro p
    by_cases h : p = "/" <;> simp [configure_device, appendAt, h]

/-- Claim C3: the fan-in of the dispatched children: if any one child fails,
`gather` fails as a whole with the first failure in completion order; it
never returns a partial list of the successful children's results. -/
theorem C3_gather_failure {ε α : Type} (order : List ℕ)
    (outs : List (Except ε α)) (e₀ : ε)
    (hperm : order.Perm (List.range outs.length))
    (herr : Except.error e₀ ∈ outs) :
    (∃ e, gather order outs = .error e ∧ Except.error e ∈ outs ∧
        firstFailure order outs = some e)
    ∧ ∀ l, gather order outs ≠ .ok l := by
  obtain ⟨i, hi⟩ := List.mem_iff_get?.mp herr
  obtain ⟨hlt, -⟩ := List.get?_eq_some.mp hi
  have hio : i ∈ order := hperm.mem_iff.mpr (List.mem_range.mpr hlt)
  have hne : firstFailure order outs ≠ none := by
    intro hnone
    have := (List.findSome?_eq_none_iff.mp hnone) i hio
    rw [hi] at this
    simp [errOf] at this
  obtain ⟨e, he⟩ := Option.ne_none_iff_exists'.mp hne
  have hmem : Except.error e ∈ outs := by
    obtain ⟨j, -, hj⟩ := List.exists_of_findSome?_eq_some he
    obtain ⟨x, hx, hxe⟩ := Option.bind_eq_some.mp hj
    cases x with
    | error e2 =>
      simp only [errOf, Option.some.injEq] at hxe
      subst hxe
      exact List.get?_mem hx
    | ok a => simp [errOf] at hxe
  refine ⟨⟨e, ?_, hmem, he⟩, ?_⟩
  · simp [gather, he]
  · intro l
    simp [gather, he]

/-- Witness for C3: a two-child fan-out whose second-dispatched child fails
and completes first. -/
theorem C3_gather_failure_witness :
    (∃ e, gather [1, 0] [Except.ok 7, Except.error "boom"] = .error e ∧
        Except.error e ∈ [Except.ok 7, Except.error "boom"] ∧
        firstFailure [1, 0] [Except.ok 7, Except.error "boom"] = some e)
    ∧ ∀ l, gather [1, 0] [Except.ok 7, Except.error "boom"] ≠ .ok l :=
  C3_gather_failure [1, 0] [Except.ok 7, Except.error "boom"] "boom"
    (by decide) (by decide)

/-- Counterexample to Claim C8 as stated: the gathered value is NOT
independent of dispatch order.  Two fan-outs of the same two children (the
children's outcomes are a permutation of each other) gathered under the same
completion order produce different aggregate values, because `asyncio.gather`
returns a list in dispatch (argument) order. -/
theorem C8_cex :
    ([Except.ok (("d1", "x") : String × String), Except.ok ("d2", "y")] :
        List (Except String (String × String))).Perm
      [Except.ok ("d2", "y"), Except.ok ("d1", "x")]
    ∧ gather [0, 1]
        ([Except.ok (("d1", "x") : String × String), Except.ok ("d2", "y")] :
          List (Except String (String × String)))
      ≠ gather [0, 1] [Except.ok ("d2", "y"), Except.ok ("d1", "x")] := by
  exact ⟨by decide, by decide⟩

/-- Claim C8 amended: the fan-in of an all-successful fan-out is the list of
the children's per-device results in dispatch order; it is independent of the
completion order of the children (but, as `C8_cex` shows, not of the dispatch
order). -/
theorem C8_amended {ε : Type} (order₁ order₂ : List ℕ)
    (outs : List (Except ε (String × List (String × List String))))
    (hok : ∀ o ∈ outs, errOf o = none) :
    gather order₁ outs = .ok (outs.filterMap okOf)
    ∧ gather order₁ outs = gather order₂ outs := by
  have key : ∀ order : List ℕ, firstFailure order outs = none := by
    intro order
    rw [firstFailure, List.findSome?_eq_none_iff]
    intro i _
    cases h : outs.get? i with
    | none => simp
    | some o => simp [hok o (List.get?_mem h)]
  exact ⟨by simp [gather, key], by simp [gather, key]⟩

/-- Witness for the amended C8: two successful children gathered under two
different completion orders. -/
theorem C8_amended_witness :
    gather [1, 0]
        ([Except.ok ("d1", [("/", ["update a"])]), Except.ok ("d2", [])] :
          List (Except String (String × List (String × List String))))
      = .ok [("d1", [("/", ["update a"])]), ("d2", [])]
    ∧ gather [1, 0]
        ([Except.ok ("d1", [("/", ["update a"])]), Except.ok ("d2", [])] :
          List (Except String (String × List (String × List String))))
      = gather [0, 1]
        [Except.ok ("d1", [("/", ["update a"])]), Except.ok ("d2", [])] :=
  C8_amended [1, 0] [0, 1]
    [Except.ok ("d1", [("/", ["update a"])]), Except.ok ("d2", [])]
    (by intro o ho
        rcases List.mem_cons.mp ho with h | h
        · subst h; rfl
        · rcases List.mem_cons.mp h with h2 | h2
          · subst h2; rfl
          · cases h2)

/-- A signal step inserts the serialized key into the readiness set. -/
theorem stepTotal_signal_readiness (pcid : String) (s : WfState)
    (t c : String) :
    (stepTotal pcid s (.signal t c)).readiness
      = insert (mkKey t c) s.readiness := rfl

/-- The diff-activity step leaves the readiness set unchanged. -/
theorem stepTotal_computeDiff_readiness (pcid : String) (s : WfState)
    (ds : List (String × String)) :
    (stepTotal pcid s (.computeDiff ds)).readiness = s.readiness := by
  cases h : s.phase <;> simp [stepTotal, step, h]

/-- The dispatch step leaves the readiness set unchanged. -/
theorem stepTotal_dispatch_readiness (pcid : String) (s : WfState) :
    (stepTotal pcid s .dispatch).readiness = s.readiness := by
  cases h : s.phase <;> simp [stepTotal, step, h]
  split <;> rfl

/-- Running actions accumulates exactly the signaled keys on top of the
starting readiness set. -/
theorem foldl_readiness (pcid : String) (acts : List Act) :
    ∀ s : WfState, (acts.foldl (stepTotal pcid) s).readiness
      = s.readiness ∪ signaledKeys acts := by
  induction acts with
  | nil => intro s; simp [signaledKeys]
  | cons a rest ih =>
    intro s
    cases a with
    | signal t c =>
      simp only [List.foldl_cons, ih, stepTotal_signal_readiness, signaledKeys,
        Finset.insert_union, Finset.union_insert]
    | computeDiff ds =>
      simp only [List.foldl_cons, ih, stepTotal_computeDiff_readiness,
        signaledKeys]
    | dispatch =>
      simp only [List.foldl_cons, ih, stepTotal_dispatch_readiness,
        signaledKeys]

/-- The readiness set of a run is exactly the set of keys delivered by its
signals. -/
theorem runActs_readiness (pcid : String) (acts : List Act) :
    (runActs pcid acts).readiness = signaledKeys acts := by
  rw [runActs, foldl_readiness]
  simp [initState]

/-- Safety invariant: once dispatched, every device key is in the readiness
set. -/
def DispatchInv (s : WfState) : Prop :=
  s.phase = .dispatched →
    (s.devices.map Prod.fst).toFinset ⊆ s.readiness

/-- The invariant is preserved by every step. -/
theorem dispatchInv_stepTotal (pcid : String) (s : WfState) (a : Act)
    (h : DispatchInv s) : DispatchInv (stepTotal pcid s a) := by
  cases a with
  | signal t c =>
    intro hp
    have hp0 : s.phase = .dispatched := hp
    have hd : (stepTotal pcid s (.signal t c)).devices = s.devices := rfl
    rw [hd, stepTotal_signal_readiness]
    exact (h hp0).trans (Finset.subset_insert _ _)
  | computeDiff ds =>
    cases hp : s.phase with
    | init => intro hcontra; simp [stepTotal, step, hp] at hcontra
    | awaiting => simpa [stepTotal, step, hp] using h
    | dispatched => simpa [stepTotal, step, hp] using h
  | dispatch =>
    cases hp : s.phase with
    | init => simpa [stepTotal, step, hp] using h
    | dispatched => simpa [stepTotal, step, hp] using h
    | awaiting =>
      by_cases hg : (s.devices.map Prod.fst).toFinset ⊆ s.readiness
      · intro _
        simp only [stepTotal, step, hp, if_pos hg, Option.getD_some]
        exact hg
      · simpa [stepTotal, step, hp, hg] using h

/-- The invariant holds in every reachable state. -/
theorem dispatchInv_runActs (pcid : String) (acts : List Act) :
    DispatchInv (runActs pcid acts) := by
  rw [runActs]
  have base : DispatchInv initState := by
    intro h; simp [initState] at h
  generalize initState = s at base ⊢
  induction acts generalizing s with
  | nil => exact base
  | cons a rest ih =>
    exact ih _ (dispatchInv_stepTotal pcid s a base)

/-- Claim C2: dispatch of the `ConfigureDevice` children is enabled exactly
when the workflow is at the readiness barrier and every key of the computed
diff set has been delivered by a signal; moreover in any reachable dispatched
state every diff key was signaled — dispatch never occurs while some diff key
is missing from the readiness set. -/
theorem C2_barrier (pcid : String) (acts : List Act) :
    ((step pcid (runActs pcid acts) Act.dispatch).isSome ↔
      (runActs pcid acts).phase = Phase.awaiting ∧
        ((runActs pcid acts).devices.map Prod.fst).toFinset ⊆
          signaledKeys acts)
    ∧ ((runActs pcid acts).phase = Phase.dispatched →
        ((runActs pcid acts).devices.map Prod.fst).toFinset ⊆
          signaledKeys acts) := by
  constructor
  · rw [← runActs_readiness pcid acts]
    cases hp : (runActs pcid acts).phase with
    | init => simp [step, hp]
    | dispatched => simp [step, hp]
    | awaiting =>
      by_cases hg : ((runActs pcid acts).devices.map Prod.fst).toFinset ⊆
          (runActs pcid acts).readiness <;>
        simp [step, hp, hg]
  · intro hp
    rw [← runActs_readiness pcid acts]
    exact dispatchInv_runActs pcid acts hp

/-- Witness for C2: after the diff activity returns one device keyed
`"t1,c1"` and the matching signal is delivered, dispatch is enabled. -/
theorem C2_barrier_witness :
    (step "pc9"
      (runActs "pc9" [Act.computeDiff [("t1,c1", "dev1")],
        Act.signal "t1" "c1"]) Act.dispatch).isSome :=
  (C2_barrier "pc9" [Act.computeDiff [("t1,c1", "dev1")],
    Act.signal "t1" "c1"]).1.mpr ⟨by decide, by decide⟩

/-- Claim C4: the `generated_artifacts` readiness set grows monotonically:
no action of the workflow removes an element, each delivered signal adds its
serialized `(target_id, checksum)` key, and delivering the same signal a
second time leaves the set unchanged. -/
theorem C4_readiness_monotone (pcid : String) (s : WfState) :
    (∀ a, s.readiness ⊆ (stepTotal pcid s a).readiness)
    ∧ (∀ t c, mkKey t c ∈ (stepTotal pcid s (Act.signal t c)).readiness)
    ∧ (∀ t c,
        (stepTotal pcid (stepTotal pcid s (Act.signal t c))
            (Act.signal t c)).readiness
          = (stepTotal pcid s (Act.signal t c)).readiness) := by
  refine ⟨?_, ?_, ?_⟩
  · intro a
    cases a with
    | signal t c =>
      rw [stepTotal_signal_readiness]
      exact Finset.subset_insert _ _
    | computeDiff ds =>
      rw [stepTotal_computeDiff_readiness]
    | dispatch =>
      rw [stepTotal_dispatch_readiness]
  · intro t c
    rw [stepTotal_signal_readiness]
    exact Finset.mem_insert_self _ _
  · intro t c
    rw [stepTotal_signal_readiness, stepTotal_signal_readiness,
      Finset.insert_idem]

/-- Polling loop, match case: if polls `i..i+k-1` miss and poll `i+k` hits
the expected checksum, the loop (given fuel beyond `k`) performs exactly
`k+1` sleep-then-query iterations and returns the storage id observed in the
matching poll. -/
theorem get_artifact_loop_match (obs : ℕ → String × String)
    (expected : String) :
    ∀ (k i fuel : ℕ), (∀ j < k, (obs (i + j)).1 ≠ expected) →
      (obs (i + k)).1 = expected → k < fuel →
      get_artifact_loop obs expected fuel i
        = (pollTrace i (k + 1), some (obs (i + k)).2) := by
  intro k
  induction k with
  | zero =>
    intro i fuel _ hk hfuel
    cases fuel with
    | zero => omega
    | succ f =>
      simp only [Nat.add_zero] at hk
      simp [get_artifact_loop, hk, pollTrace]
  | succ k ih =>
    intro i fuel hmin hk hfuel
    cases fuel with
    | zero => omega
    | succ f =>
      have h0 : (obs i).1 ≠ expected := by
        have := hmin 0 (Nat.succ_pos k)
        simpa using this
      have hmin2 : ∀ j < k, (obs (i + 1 + j)).1 ≠ expected := by
        intro j hj
        have := hmin (j + 1) (by omega)
        have harith : i + (j + 1) = i + 1 + j := by omega
        rwa [harith] at this
      have hk2 : (obs (i + 1 + k)).1 = expected := by
        have harith : i + (k + 1) = i + 1 + k := by omega
        rwa [harith] at hk
      have ihr := ih (i + 1) f hmin2 hk2 (by omega)
      simp only [get_artifact_loop, if_neg h0, ihr, pollTrace]
      have harith : i + 1 + k = i + (k + 1) := by omega
      rw [harith]

/-- Polling loop, no-match case: if every poll within the fuel bound misses,
the loop performs all its iterations and exits with no storage id — with no
timeout of its own, it never leaves the loop. -/
theorem get_artifact_loop_nomatch (obs : ℕ → String × String)
    (expected : String) :
    ∀ (fuel i : ℕ), (∀ j < fuel, (obs (i + j)).1 ≠ expected) →
      get_artifact_loop obs expected fuel i = (pollTrace i fuel, none) := by
  intro fuel
  induction fuel with
  | zero => intro i _; simp [get_artifact_loop, pollTrace]
  | succ f ih =>
    intro i hmiss
    have h0 : (obs i).1 ≠ expected := by
      have := hmiss 0 (Nat.succ_pos f)
      simpa using this
    have hmiss2 : ∀ j < f, (obs (i + 1 + j)).1 ≠ expected := by
      intro j hj
      have := hmiss (j + 1) (by omega)
      have harith : i + (j + 1) = i + 1 + j := by omega
      rwa [harith] at this
    simp [get_artifact_loop, h0, ih (i + 1) hmiss2, pollTrace]

/-- Claim C9: `get_artifact` polls at a fixed 3-time-unit interval and
proceeds to fetch the artifact content only when an observed checksum equals
`expected_checksum`.  If the first matching poll is poll `k`, the call
terminates (for any fuel beyond `k`) and returns the decoded content stored
at the `storage_id` observed in that poll; if no poll within the fuel bound
ever matches, the loop exits with nothing for every fuel bound — it has no
timeout of its own. -/
theorem C9_poll_until_match (store : String → String)
    (obs : ℕ → String × String) (expected : String) (k fuel : ℕ)
    (hmin : ∀ j < k, (obs j).1 ≠ expected)
    (hk : (obs k).1 = expected) (hfuel : k < fuel) :
    get_artifact store obs expected fuel
      = (pollTrace 0 (k + 1) ++ [Ev.fetchEv (obs k).2],
         some (store (obs k).2))
    ∧ ∀ (obs2 : ℕ → String × String) (fuel2 : ℕ),
        (∀ j < fuel2, (obs2 j).1 ≠ expected) →
        get_artifact store obs2 expected fuel2 = (pollTrace 0 fuel2, none) := by
  constructor
  · have hmin0 : ∀ j < k, (obs (0 + j)).1 ≠ expected := by
      intro j hj
      simpa using hmin j hj
    have hk0 : (obs (0 + k)).1 = expected := by simpa using hk
    have hloop := get_artifact_loop_match obs expected k 0 fuel hmin0 hk0 hfuel
    simp only [Nat.zero_add] at hloop
    rw [get_artifact, hloop]
  · intro obs2 fuel2 hmiss
    have hmiss0 : ∀ j < fuel2, (obs2 (0 + j)).1 ≠ expected := by
      intro j hj
      simpa using hmiss j hj
    have hloop := get_artifact_loop_nomatch obs2 expected fuel2 0 hmiss0
    rw [get_artifact, hloop]

/-- Witness for C9: the device misses on poll 0 and matches on poll 1. -/
theorem C9_poll_until_match_witness :
    get_artifact (fun sid => "decoded-" ++ sid)
        (fun n => if n = 0 then ("c1", "s1") else ("c2", "s2")) "c2" 3
      = (pollTrace 0 2 ++
          [Ev.fetchEv ((fun n : ℕ =>
            if n = 0 then ("c1", "s1") else ("c2", "s2")) 1).2],
         some ((fun sid => "decoded-" ++ sid)
          ((fun n : ℕ => if n = 0 then ("c1", "s1") else ("c2", "s2")) 1).2))
    ∧ ∀ (obs2 : ℕ → String × String) (fuel2 : ℕ),
        (∀ j < fuel2, (obs2 j).1 ≠ "c2") →
        get_artifact (fun sid => "decoded-" ++ sid) obs2 "c2" fuel2
          = (pollTrace 0 fuel2, none) :=
  C9_poll_until_match (fun sid => "decoded-" ++ sid)
    (fun n => if n = 0 then ("c1", "s1") else ("c2", "s2")) "c2" 1 3
    (by decide) (by decide) (by decide)

/-- Claim C10: the first checksum query of `get_artifact` happens only after
one full 3-time-unit sleep, and even when the very first observation already
carries the expected checksum the call performs that sleep and one query
before fetching the content. -/
theorem C10_first_query_after_sleep (store : String → String)
    (obs : ℕ → String × String) (expected : String) (fuel : ℕ)
    (hfuel : 1 ≤ fuel) :
    (∃ rest, (get_artifact store obs expected fuel).1
        = Ev.sleepEv 3 :: Ev.queryEv 0 :: rest)
    ∧ ((obs 0).1 = expected →
        get_artifact store obs expected fuel
          = ([Ev.sleepEv 3, Ev.queryEv 0, Ev.fetchEv (obs 0).2],
             some (store (obs 0).2))) := by
  constructor
  · cases fuel with
    | zero => omega
    | succ f =>
      by_cases h : (obs 0).1 = expected
      · refine ⟨[Ev.fetchEv (obs 0).2], ?_⟩
        simp [get_artifact, get_artifact_loop, h]
      · cases hr : (get_artifact_loop obs expected f 1).2 with
        | some sid =>
          refine ⟨(get_artifact_loop obs expected f 1).1 ++ [Ev.fetchEv sid], ?_⟩
          simp [get_artifact, get_artifact_loop, h, hr]
        | none =>
          refine ⟨(get_artifact_loop obs expected f 1).1, ?_⟩
          simp [get_artifact, get_artifact_loop, h, hr]
  · intro h0
    have hloop := get_artifact_loop_match obs expected 0 0 fuel
      (by intro j hj; omega) (by simpa using h0) hfuel
    simp only [Nat.zero_add] at hloop
    rw [get_artifact, hloop]
    rfl

/-- Witness for C10: the expected checksum is already rendered at call time,
yet one sleep and one query precede the fetch. -/
theorem C10_first_query_after_sleep_witness :
    (∃ rest, (get_artifact (fun sid => "decoded-" ++ sid)
        (fun _ => ("c1", "s1")) "c1" 5).1
        = Ev.sleepEv 3 :: Ev.queryEv 0 :: rest)
    ∧ (((fun _ : ℕ => (("c1" : String), ("s1" : String))) 0).1 = "c1" →
        get_artifact (fun sid => "decoded-" ++ sid)
            (fun _ => ("c1", "s1")) "c1" 5
          = ([Ev.sleepEv 3, Ev.queryEv 0,
              Ev.fetchEv ((fun _ : ℕ => (("c1" : String), ("s1" : String))) 0).2],
             some ((fun sid => "decoded-" ++ sid)
              ((fun _ : ℕ => (("c1" : String), ("s1" : String))) 0).2))) :=
  C10_first_query_after_sleep (fun sid => "decoded-" ++ sid)
    (fun _ => ("c1", "s1")) "c1" 5 (by decide)

/-- Counterexample to Claim C5 as stated: for a trigger payload of the shape
`{"data": {"proposed_change_id": str, "branch": str}}` the started run does
get the durable id `proposed-change-{proposed_change_id}`, but the workflow
reads the branch with `payload["branch"]` at the TOP level of the payload, so
the Branch Diff Detector is NOT invoked with the branch carried inside the
trigger's `data` object — the lookup fails instead. -/
theorem C5_cex :
    run_proposed_change_workflow_id
        (.obj [("data", .obj [("proposed_change_id", .str "42"),
          ("branch", .str "feature-x")])])
      = some ("proposed-change-" ++ "42")
    ∧ run_branch_arg
        (.obj [("data", .obj [("proposed_change_id", .str "42"),
          ("branch", .str "feature-x")])]) = none
    ∧ run_branch_arg
        (.obj [("data", .obj [("proposed_change_id", .str "42"),
          ("branch", .str "feature-x")])]) ≠ some "feature-x" := by
  refine ⟨rfl, rfl, ?_⟩
  intro h
  rw [show run_branch_arg
      (.obj [("data", .obj [("proposed_change_id", .str "42"),
        ("branch", .str "feature-x")])]) = none from rfl] at h
  cases h

/-- Claim C5 amended: posting a trigger whose `data` object carries
`proposed_change_id` starts the run under the durable id
`proposed-change-{proposed_change_id}`, and the run invokes the Branch Diff
Detector with the payload's top-level `"branch"` value (not a branch nested
inside `data`). -/
theorem C5_amended (payload d : JVal) (p b : String)
    (h1 : payload.get? "data" = some d)
    (h2 : d.getStr? "proposed_change_id" = some p)
    (h3 : payload.getStr? "branch" = some b) :
    run_proposed_change_workflow_id payload = some ("proposed-change-" ++ p)
    ∧ run_branch_arg payload = some b := by
  constructor
  · simp [run_proposed_change_workflow_id, h1, h2]
  · exact h3

/-- Witness for the amended C5: a payload carrying the branch at top level. -/
theorem C5_amended_witness :
    run_proposed_change_workflow_id
        (.obj [("branch", .str "feature-x"),
          ("data", .obj [("proposed_change_id", .str "42")])])
      = some ("proposed-change-" ++ "42")
    ∧ run_branch_arg
        (.obj [("branch", .str "feature-x"),
          ("data", .obj [("proposed_change_id", .str "42")])])
      = some "feature-x" :=
  C5_amended
    (.obj [("branch", .str "feature-x"),
      ("data", .obj [("proposed_change_id", .str "42")])])
    (.obj [("proposed_change_id", .str "42")]) "42" "feature-x" rfl rfl rfl

/-- Counterexample to Claim C6 as stated: the router does not deliver the
artifact-updated event only to the instance matching `target_id` — with two
running coordinator instances it signals both, including one whose identity
matches neither `target_id` nor its proposed-change key. -/
theorem C6_cex :
    ("proposed-change-pc2", "T1", "c1") ∈
      signal_running_workflows ["proposed-change-pc1", "proposed-change-pc2"]
        "T1" "c1"
    ∧ ("proposed-change-pc2" : String) ≠ "T1"
    ∧ ("proposed-change-pc2" : String) ≠ "proposed-change-" ++ "T1" := by
  refine ⟨?_, by decide, by decide⟩
  simp [signal_running_workflows]

/-- Claim C6 amended: the router delivers the event, with its
`(target_id, checksum)` payload, to EVERY currently running
`ProposedChangeWorkflow` instance, regardless of whether its identity
matches `target_id`; when no instance is running, the event is dropped
without error and nothing is queued for later delivery. -/
theorem C6_amended (running : List String) (target_id checksum : String) :
    (∀ wid, (wid, target_id, checksum) ∈
        signal_running_workflows running target_id checksum ↔ wid ∈ running)
    ∧ (∀ d ∈ signal_running_workflows running target_id checksum,
        d.2 = (target_id, checksum))
    ∧ signal_running_workflows [] target_id checksum = [] := by
  refine ⟨?_, ?_, rfl⟩
  · intro wid
    constructor
    · intro h
      obtain ⟨w, hw, he⟩ := List.mem_map.mp h
      cases he
      exact hw
    · intro h
      exact List.mem_map.mpr ⟨wid, h, rfl⟩
  · intro d hd
    obtain ⟨w, -, he⟩ := List.mem_map.mp hd
    cases he
    rfl

/-- Witness for C7: one changed element lands under its path key formatted
as `"<op> <value>"`. -/
theorem C7_apply_normalization_witness :
    (configure_device "router1"
        (GnmiResp.tup [("update", "/interfaces", "eth0")])).2 "/interfaces"
      = ["update eth0"] :=
  ((C7_apply_normalization "router1").1
    [("update", "/interfaces", "eth0")] "/interfaces").trans (by decide)

/-- Witness for C4: one delivered signal adds its key; a repeated delivery
leaves the readiness set unchanged. -/
theorem C4_readiness_monotone_witness :
    mkKey "t1" "c1" ∈
      (stepTotal "pc1" initState (Act.signal "t1" "c1")).readiness
    ∧ (stepTotal "pc1" (stepTotal "pc1" initState (Act.signal "t1" "c1"))
          (Act.signal "t1" "c1")).readiness
        = (stepTotal "pc1" initState (Act.signal "t1" "c1")).readiness :=
  ⟨(C4_readiness_monotone "pc1" initState).2.1 "t1" "c1",
   (C4_readiness_monotone "pc1" initState).2.2 "t1" "c1"⟩

/-- Witness for the amended C6: a single running instance receives the
event. -/
theorem C6_amended_witness :
    ("proposed-change-pc1", "T1", "c1") ∈
      signal_running_workflows ["proposed-change-pc1"] "T1" "c1" :=
  ((C6_amended ["proposed-change-pc1"] "T1" "c1").1 "proposed-change-pc1").mpr
    (by decide)

end RolloutCoord
